import Mathlib

/-!
Verification development for the diskrasper appliance controller
(`diskrasper.py`) and its erase helper (`dd.py`).

The controller is a finite state machine driven by a single event queue.
We embed:
  * the `State` and event vocabulary and the `TRANSITIONS` table;
  * `StateMachine.enter` / the event-dispatch loop body (`StateMachine.step`),
    with the observable effects of the entry actions (display commands,
    wipe / abort commands) recorded in an explicit machine record;
  * the `UserInterface` pattern table, `display` method and the body of its
    render loop;
  * the `DiskWiper` watcher logic (exit-code to event translation, launch
    failure propagation, `abort`);
  * the write loop of `dd.py` over an abstract write oracle.
Machine integers do not overflow anywhere in this code, so exit codes are
`Int` and sizes/offsets are `Nat`.
-/

namespace Diskrasper

/-- The six controller states of `diskrasper.py` (strings in the source). -/
inductive State
  | IDLE
  | READY
  | ERASING
  | IOERROR
  | WIPED
  | YANKED
deriving DecidableEq, Fintype, Repr

/-- The five event kinds (strings `add`, `remove`, `button`, `dd_ok`,
`dd_fail` in the source). -/
inductive Event
  | add
  | remove
  | button
  | dd_ok
  | dd_fail
deriving DecidableEq, Fintype, Repr

/-- One step of a LED pattern: the set of lit LEDs (as in the source, a
string over `R`, `G`, `B`) and an optional duration in seconds
(`none` = Python `None` = hold forever). Durations are exact rationals. -/
abbrev LedStep := String × Option ℚ

def pattern_red : List LedStep := [("R", none)]

def pattern_yellow : List LedStep := [("RG", none)]

def pattern_green : List LedStep := [("G", none)]

def pattern_blue : List LedStep := [("B", none)]

def pattern_blank : List LedStep := [("", none)]

/-- `[("RG", 0.03), ("", 0.08)] * 4 + [("", 0.11*5)]` from the source. -/
def pattern_blink : List LedStep :=
  (List.replicate 4 [(("RG" : String), some ((3 : ℚ)/100)), ("", some ((8 : ℚ)/100))]).flatten
  ++ [("", some ((11 : ℚ)/100 * 5))]

/-- `UserInterface.patterns`, the dictionary of named LED patterns. -/
def patterns : List (String × List LedStep) :=
  [("red", pattern_red),
   ("yellow", pattern_yellow),
   ("green", pattern_green),
   ("blue", pattern_blue),
   ("blank", pattern_blank),
   ("blink", pattern_blink)]

/-- Dictionary lookup `self.patterns[pat]` (keys are distinct, so
first-match association lookup coincides with dict lookup). -/
def lookupPattern (pat : String) : Option (List LedStep) :=
  (patterns.find? (fun p => decide (p.1 = pat))).map (fun p => p.2)

/-- Observable state of the `UserInterface` actor: the active pattern
(`self.pattern`) and whether the `update` event flag is set. -/
structure UIState where
  pattern : List LedStep
  update : Bool
deriving DecidableEq, Repr

/-- The actor state right after `UserInterface.__init__`:
`self.pattern = self.patterns['blank']`, update flag clear. -/
def UserInterface.init : UIState :=
  { pattern := pattern_blank, update := false }

/-- `UserInterface.display(pat)`: if `pat` names a defined pattern, replace
the active pattern and set the `update` flag; otherwise do nothing at all. -/
def UserInterface.display (ui : UIState) (pat : String) : UIState :=
  match lookupPattern pat with
  | some p => { pattern := p, update := true }
  | none => ui

/-- One observation of the body of `UserInterface.run`: the actor is at step
`idx` of its active pattern and its timed wait has just ended. If the wait
ended because the `update` flag was set (`display` was called), the flag is
cleared and the `for` loop is broken, so rendering restarts at step 0 of the
(new) active pattern; otherwise the wait timed out (only possible for a step
with a finite duration) and the `for` loop advances to the next step,
wrapping to 0 at the end of the list via the enclosing `while`. -/
def UserInterface.runStep (ui : UIState) (idx : Nat) : UIState × Nat :=
  if ui.update then ({ ui with update := false }, 0)
  else (ui, if idx + 1 < ui.pattern.length then idx + 1 else 0)

/-- The observable machine configuration at the controller: the canonical
state (`self.state`, `none` before `run` enters the initial state), the
`UserInterface` actor state, and counters of how many times the erase
process was commanded (`diskwiper.wipe()`) and aborted
(`diskwiper.abort()`). -/
structure FSM where
  state : Option State
  ui : UIState
  wipes : Nat
  aborts : Nat
deriving DecidableEq, Repr

/-- `StateMachine.enter_IDLE`. -/
def StateMachine.enter_IDLE (m : FSM) : FSM :=
  { m with ui := UserInterface.display m.ui "blank" }

/-- `StateMachine.enter_READY`. -/
def StateMachine.enter_READY (m : FSM) : FSM :=
  { m with ui := UserInterface.display m.ui "yellow" }

/-- `StateMachine.enter_ERASING`: command the wiper (`diskwiper.wipe()`),
then display the blink pattern. -/
def StateMachine.enter_ERASING (m : FSM) : FSM :=
  { m with wipes := m.wipes + 1, ui := UserInterface.display m.ui "blink" }

/-- `StateMachine.enter_IOERROR`. -/
def StateMachine.enter_IOERROR (m : FSM) : FSM :=
  { m with ui := UserInterface.display m.ui "red" }

/-- `StateMachine.enter_WIPED`. -/
def StateMachine.enter_WIPED (m : FSM) : FSM :=
  { m with ui := UserInterface.display m.ui "green" }

/-- `StateMachine.enter_YANKED`: abort the wiper (`diskwiper.abort()`),
then display red. -/
def StateMachine.enter_YANKED (m : FSM) : FSM :=
  { m with aborts := m.aborts + 1, ui := UserInterface.display m.ui "red" }

/-- The `getattr(self, 'enter_%s' % self.state)` dispatch: every state has
an entry method; no state has a `leave_*` method (the `hasattr` test always
fails for leave actions, so leaving a state has no effect). -/
def StateMachine.entryAction : State → FSM → FSM
  | .IDLE => StateMachine.enter_IDLE
  | .READY => StateMachine.enter_READY
  | .ERASING => StateMachine.enter_ERASING
  | .IOERROR => StateMachine.enter_IOERROR
  | .WIPED => StateMachine.enter_WIPED
  | .YANKED => StateMachine.enter_YANKED

/-- `StateMachine.enter(newstate)`: if the state actually changes, run the
leave action (there is none), assign the state, run the entry action; a
self-transition (or re-entering the current state) does nothing. -/
def StateMachine.enter (m : FSM) (newstate : State) : FSM :=
  if m.state = some newstate then m
  else StateMachine.entryAction newstate { m with state := some newstate }

/-- The `TRANSITIONS` list of `diskrasper.py`, in source order. -/
def TRANSITIONS : List (State × Event × State) :=
  [(.IDLE,    .add,     .READY),
   (.IDLE,    .button,  .IDLE),
   (.READY,   .remove,  .IDLE),
   (.READY,   .button,  .ERASING),
   (.ERASING, .remove,  .YANKED),
   (.ERASING, .button,  .ERASING),
   (.ERASING, .dd_ok,   .WIPED),
   (.ERASING, .dd_fail, .IOERROR),
   (.IOERROR, .remove,  .IDLE),
   (.IOERROR, .button,  .IOERROR),
   (.WIPED,   .remove,  .IDLE),
   (.WIPED,   .button,  .WIPED),
   (.YANKED,  .add,     .READY),
   (.YANKED,  .button,  .IDLE)]

/-- The scan in `StateMachine.run`: the first rule of `TRANSITIONS` whose
current state and trigger match (the loop `break`s at the first match); a
`none` controller state matches no rule. -/
def findRule (s : Option State) (e : Event) : Option State :=
  (TRANSITIONS.find? (fun r => decide (some r.1 = s) && decide (r.2.1 = e))).map
    (fun r => r.2.2)

/-- The body of the event loop of `StateMachine.run` for one dequeued event:
apply the first matching rule via `enter`, or log and discard the event
(leaving the machine untouched) when no rule matches. -/
def StateMachine.step (m : FSM) (e : Event) : FSM :=
  match findRule m.state e with
  | some n => StateMachine.enter m n
  | none => m

/-- Processing a whole event sequence, in queue order. -/
def StateMachine.run (m : FSM) (events : List Event) : FSM :=
  events.foldl StateMachine.step m

/-- The machine as built by `StateMachine.__init__`: no state yet, UI just
initialized, no wipe or abort commands issued. -/
def StateMachine.mk0 : FSM :=
  { state := none, ui := UserInterface.init, wipes := 0, aborts := 0 }

/-- The machine right after `StateMachine.run` performs
`self.enter(self.initial)` with initial state `IDLE` (as `main` does). -/
def StateMachine.booted : FSM :=
  StateMachine.enter StateMachine.mk0 .IDLE

/-- The authoritative transition table of spec §4.1, transcribed cell by
cell from the spec (dashes are `none`). Used only to compare against the
source-derived `findRule`. -/
def specTable41 : State → Event → Option State
  | .IDLE, .add => some .READY
  | .IDLE, .button => some .IDLE
  | .READY, .remove => some .IDLE
  | .READY, .button => some .ERASING
  | .ERASING, .remove => some .YANKED
  | .ERASING, .button => some .ERASING
  | .ERASING, .dd_ok => some .WIPED
  | .ERASING, .dd_fail => some .IOERROR
  | .IOERROR, .remove => some .IDLE
  | .IOERROR, .button => some .IOERROR
  | .WIPED, .remove => some .IDLE
  | .WIPED, .button => some .WIPED
  | .YANKED, .add => some .READY
  | .YANKED, .button => some .IDLE
  | _, _ => none

/-- Operating-system errors that `subprocess.Popen` can raise when the
erase command cannot be launched. -/
inductive OSErr
  | fileNotFound
  | permissionDenied
deriving DecidableEq, Repr

/-- Python exceptions relevant to `DiskWiper.abort`. -/
inductive PyExc
  | attributeError
deriving DecidableEq, Repr

/-- A `subprocess.Popen` handle: `returncode` is `none` while the process
is still running and `some code` once it has been waited for. -/
structure Popen where
  returncode : Option Int
deriving DecidableEq, Repr

/-- `DiskWiper.abort`: `self.proc.kill()` wrapped in `try/except OSError`.
With a real handle (`some p`), `kill` either succeeds or raises an
`OSError`, which the handler swallows, so the call returns normally. With
`self.proc = None` (no process ever launched), the attribute access
`None.kill` raises `AttributeError`, which `except OSError` does not catch,
so `abort` itself raises. -/
def DiskWiper.abort (proc : Option Popen) : Except PyExc Unit :=
  match proc with
  | none => Except.error PyExc.attributeError
  | some _ => Except.ok ()

/-- The exit-status handling at the end of one iteration of
`DiskWiper.run`: exit code 0 posts `dd_ok` unconditionally; a non-zero exit
code posts `dd_fail` unless the controller state read at that moment is
`YANKED`, in which case nothing is posted. Returns the event posted to the
state machine, if any. -/
def DiskWiper.exitEvent (ret : Int) (ctrl : Option State) : Option Event :=
  if ret = 0 then some Event.dd_ok
  else if ctrl ≠ some State.YANKED then some Event.dd_fail
  else none

/-- One iteration of `DiskWiper.run` after `wipeevent` fires, abstracted
over the launch outcome: `subprocess.Popen(WIPECMD)` either raises an
`OSError` — the iteration body has no `try`, so the exception propagates
out of the thread and no event is posted — or yields a process whose
`wait()` returns exit code `ret`, which is then translated by the
exit-status handling. -/
def DiskWiper.runIter (launch : Except OSErr Int) (ctrl : Option State) :
    Except OSErr (Option Event) :=
  match launch with
  | .error e => .error e
  | .ok ret => .ok (DiskWiper.exitEvent ret ctrl)

/-- The write loop of `dd.py`'s `main`, with explicit fuel: starting from
file offset `offz`, `while offz < size: offz += os.write(fdesc, ZEROS)`.
The write oracle `w` gives, for each offset, either `some k` (the write
succeeded, `k` bytes of zeros were written at that offset, the file offset
advances by `k`) or `none` (the write raised; the bare `except` makes the
program exit with status 1). Returns `some (exitCode, finalOffset)`, or
`none` if the fuel ran out before the loop finished. -/
def ddRun (w : Nat → Option Nat) : Nat → Nat → Nat → Option (Nat × Nat)
  | 0, size, offz => if offz < size then none else some (0, offz)
  | fuel + 1, size, offz =>
    if offz < size then
      match w offz with
      | some k => ddRun w fuel size (offz + k)
      | none => some (1, offz)
    else some (0, offz)

/-- The trace of writes performed by the loop: the list of
`(offset, length)` intervals of zero bytes written, in order. -/
def ddTrace (w : Nat → Option Nat) : Nat → Nat → Nat → List (Nat × Nat)
  | 0, _, _ => []
  | fuel + 1, size, offz =>
    if offz < size then
      match w offz with
      | some k => (offz, k) :: ddTrace w fuel size (offz + k)
      | none => []
    else []

/-- The device file as `dd.py` sees it: `os.lseek(fdesc, 0, SEEK_END)`
returns its size in bytes. -/
structure DevFile where
  size : Nat
deriving DecidableEq, Repr

/-- `dd.py`'s `main`: open the device (`none` models `os.open` raising —
caught by the bare `except`, exit status 1 with nothing written); then
`size = lseek(fd, 0, SEEK_END)`, `offz = lseek(fd, 0, SEEK_SET) = 0`, and
the write loop runs. `size` units of fuel suffice whenever every write
makes progress, since the offset starts at 0 and must reach `size`. -/
def dd_main (openResult : Option DevFile) (w : Nat → Option Nat) :
    Option (Nat × Nat) :=
  match openResult with
  | none => some (1, 0)
  | some f => ddRun w f.size f.size 0

/-- A machine resting in state `s` with a freshly initialized UI and zeroed
command counters; used to instantiate universally quantified results at
concrete configurations. -/
def mkFSM (s : State) : FSM :=
  { state := some s, ui := UserInterface.init, wipes := 0, aborts := 0 }

/-! ## Helper lemmas about the controller loop -/

/-- Entry actions never touch the state field (they only command the UI
and the wiper). -/
lemma entryAction_state (s : State) (m : FSM) :
    (StateMachine.entryAction s m).state = m.state := by
  cases s <;> rfl

/-- After `enter`, the controller is in the requested state (whether or not
the entry action ran). -/
lemma enter_state (m : FSM) (n : State) :
    (StateMachine.enter m n).state = some n := by
  unfold StateMachine.enter
  split
  · next h => exact h
  · rw [entryAction_state]

/-- The state after one loop iteration: the rule target if a rule matched,
the old state otherwise. -/
lemma step_state (m : FSM) (e : Event) :
    (StateMachine.step m e).state = (findRule m.state e).elim m.state some := by
  unfold StateMachine.step
  cases h : findRule m.state e <;> simp [enter_state]

/-- A matched rule whose target differs from the current state runs the
target's entry action on the updated machine. -/
lemma step_eq_of_rule (m : FSM) (e : Event) (n : State)
    (hr : findRule m.state e = some n) (hne : m.state ≠ some n) :
    StateMachine.step m e = StateMachine.entryAction n { m with state := some n } := by
  have hstep : StateMachine.step m e = StateMachine.enter m n := by
    unfold StateMachine.step
    rw [hr]
  rw [hstep]
  unfold StateMachine.enter
  rw [if_neg hne]

/-- The source transition scan agrees with the spec §4.1 table on every
(state, event) pair. -/
lemma findRule_eq_spec :
    ∀ (s : State) (e : Event), findRule (some s) e = specTable41 s e := by
  decide

/-! ## Claim theorems -/

/-- C1: For every (state, event) pair, one iteration of the Controller's
event loop produces exactly the successor state given by the authoritative
table of spec §4.1 — the rule target when the table has a rule for the
pair, and the unchanged current state when it has none (the source scan
applies the first matching rule, and it agrees with the table on all 30
pairs). -/
theorem controller_follows_spec_table (m : FSM) (s : State) (e : Event)
    (h : m.state = some s) :
    (StateMachine.step m e).state = some ((specTable41 s e).getD s) := by
  rw [step_state, h, findRule_eq_spec]
  cases specTable41 s e <;> rfl

/-- Witness for C1 at the concrete pair (Erasing, DiskRemoved). -/
theorem controller_follows_spec_table_witness :
    (mkFSM State.ERASING).state = some State.ERASING ∧
    (StateMachine.step (mkFSM State.ERASING) Event.remove).state =
      some ((specTable41 State.ERASING Event.remove).getD State.ERASING) :=
  ⟨rfl, controller_follows_spec_table (mkFSM State.ERASING) State.ERASING Event.remove rfl⟩

/-- C4: When no rule of the transition table matches the current state and
the event, the event is discarded: the whole machine configuration —
state, display, wipe/abort command counters — is left untouched (no entry
or leave action runs). -/
theorem unmatched_event_is_noop (m : FSM) (e : Event)
    (h : findRule m.state e = none) :
    StateMachine.step m e = m := by
  unfold StateMachine.step
  rw [h]

/-- Witness for C4: a repeated `DiskAdded` in `Ready` matches no rule and
leaves the machine in `Ready`, twice over. -/
theorem unmatched_event_is_noop_witness :
    findRule (mkFSM State.READY).state Event.add = none ∧
    StateMachine.step (mkFSM State.READY) Event.add = mkFSM State.READY ∧
    StateMachine.step (StateMachine.step (mkFSM State.READY) Event.add) Event.add =
      StateMachine.step (mkFSM State.READY) Event.add :=
  ⟨by decide, unmatched_event_is_noop (mkFSM State.READY) Event.add (by decide),
   unmatched_event_is_noop (StateMachine.step (mkFSM State.READY) Event.add)
     Event.add (by decide)⟩

/-- C5: A rule whose target equals the current state (a self-transition)
changes nothing observable: `enter` returns the machine unchanged, so no
display command is issued and the erase process is not re-commanded. -/
theorem self_transition_is_noop (m : FSM) (s : State) (e : Event)
    (h : m.state = some s) (hr : findRule m.state e = some s) :
    StateMachine.step m e = m := by
  have hstep : StateMachine.step m e = StateMachine.enter m s := by
    unfold StateMachine.step
    rw [hr]
  rw [hstep]
  unfold StateMachine.enter
  rw [if_pos h]

/-- Witness for C5 at the `ButtonPressed` self-transition of `Erasing`. -/
theorem self_transition_is_noop_witness :
    (mkFSM State.ERASING).state = some State.ERASING ∧
    findRule (mkFSM State.ERASING).state Event.button = some State.ERASING ∧
    StateMachine.step (mkFSM State.ERASING) Event.button = mkFSM State.ERASING :=
  ⟨rfl, by decide,
   self_transition_is_noop (mkFSM State.ERASING) State.ERASING Event.button rfl (by decide)⟩

/-- C2 counterexample: with exit code 0 and the controller already in
`Yanked`, the watcher still posts `dd_ok` (`EraseSucceeded`) — the
`YANKED` check guards only the failure branch — contradicting the claim
that no completion event is posted in that case. -/
theorem exit_zero_in_yanked_posts_success :
    DiskWiper.exitEvent 0 (some State.YANKED) = some Event.dd_ok ∧
    DiskWiper.exitEvent 0 (some State.YANKED) ≠ none := by
  exact ⟨rfl, fun h => Option.noConfusion h⟩

/-- C2 (amended): the watcher posts `EraseSucceeded` whenever the exit
code is zero, regardless of the controller state; for a non-zero exit
code it posts `EraseFailed` unless the state read at that moment is
`Yanked`, in which case it posts nothing. -/
theorem exit_event_translation (ret : Int) (st : Option State) :
    (ret = 0 → DiskWiper.exitEvent ret st = some Event.dd_ok) ∧
    (ret ≠ 0 → st = some State.YANKED → DiskWiper.exitEvent ret st = none) ∧
    (ret ≠ 0 → st ≠ some State.YANKED →
      DiskWiper.exitEvent ret st = some Event.dd_fail) := by
  refine ⟨fun h0 => ?_, fun hn hy => ?_, fun hn hy => ?_⟩ <;>
    simp [DiskWiper.exitEvent, *]

/-- Witness for C2 (amended) at exit codes 3 and 0. -/
theorem exit_event_translation_witness :
    ((3 : Int) ≠ 0 ∧ DiskWiper.exitEvent 3 (some State.YANKED) = none) ∧
    ((0 : Int) = 0 ∧ DiskWiper.exitEvent 0 none = some Event.dd_ok) :=
  ⟨⟨by decide, (exit_event_translation 3 (some State.YANKED)).2.1 (by decide) rfl⟩,
   ⟨rfl, (exit_event_translation 0 none).1 rfl⟩⟩

/-- C3 counterexample: when `subprocess.Popen` raises (command missing),
the iteration of `DiskWiper.run` has no handler, so the exception
propagates out of the supervisor thread and no `dd_fail` event reaches the
Controller — contradicting the claim that every launch failure is
surfaced as `EraseFailed`. -/
theorem launch_failure_escapes :
    DiskWiper.runIter (Except.error OSErr.fileNotFound) (some State.ERASING) =
      Except.error OSErr.fileNotFound ∧
    DiskWiper.runIter (Except.error OSErr.fileNotFound) (some State.ERASING) ≠
      Except.ok (some Event.dd_fail) :=
  ⟨rfl, fun h => Except.noConfusion h⟩

/-- C3 (amended): a launch exception (command missing, permission denied)
propagates out of the supervisor uncaught, posting no event; a process
terminated by a signal reports a non-zero (negative) exit code and is
surfaced as `EraseFailed` (unless the state is already `Yanked`), which
drives `Erasing` to `IoError`. -/
theorem launch_failure_propagation (e : OSErr) (st : Option State) (ret : Int) :
    DiskWiper.runIter (Except.error e) st = Except.error e ∧
    (ret ≠ 0 → st ≠ some State.YANKED →
      DiskWiper.runIter (Except.ok ret) st = Except.ok (some Event.dd_fail)) ∧
    findRule (some State.ERASING) Event.dd_fail = some State.IOERROR := by
  refine ⟨rfl, fun hn hy => ?_, rfl⟩
  simp [DiskWiper.runIter, DiskWiper.exitEvent, hn, hy]

/-- Witness for C3 (amended): a SIGKILL-style exit code −9 in `Erasing`
becomes `dd_fail`. -/
theorem launch_failure_propagation_witness :
    ((-9 : Int) ≠ 0) ∧ (some State.ERASING ≠ some State.YANKED) ∧
    DiskWiper.runIter (Except.ok (-9)) (some State.ERASING) =
      Except.ok (some Event.dd_fail) :=
  ⟨by decide, by decide,
   (launch_failure_propagation OSErr.permissionDenied (some State.ERASING) (-9)).2.1
     (by decide) (by decide)⟩

/-- C6: `abort()` with `self.proc = None` (no process ever launched)
evaluates `None.kill()`, raising `AttributeError`, which the
`except OSError` clause does not catch — so the call raises instead of
being a no-op; with a real handle the call returns normally. -/
theorem abort_without_process_raises :
    DiskWiper.abort none = Except.error PyExc.attributeError ∧
    DiskWiper.abort (some { returncode := some 1 }) = Except.ok () :=
  ⟨rfl, rfl⟩

/-- A matched rule with a genuinely new target, phrased with the machine's
known state: the step is the target's entry action on the re-stated
machine. -/
lemma step_compute (m : FSM) (s n : State) (e : Event)
    (h : m.state = some s) (hr : findRule (some s) e = some n) (hne : s ≠ n) :
    StateMachine.step m e = StateMachine.entryAction n { m with state := some n } := by
  apply step_eq_of_rule
  · rw [h]; exact hr
  · rw [h]; exact fun hc => hne (Option.some.inj hc)

/-- C7: From `Idle`, the sequence DiskAdded, ButtonPressed, EraseSucceeded,
DiskRemoved passes through `Ready`, `Erasing`, `Wiped` and ends in `Idle`
with the blank pattern active, the erase process having been commanded
exactly once (on the single entry into `Erasing`). -/
theorem wipe_cycle (m : FSM) (h : m.state = some State.IDLE) :
    (StateMachine.step m Event.add).state = some State.READY ∧
    (StateMachine.step (StateMachine.step m Event.add) Event.button).state =
      some State.ERASING ∧
    (StateMachine.step (StateMachine.step (StateMachine.step m Event.add)
      Event.button) Event.dd_ok).state = some State.WIPED ∧
    (StateMachine.run m [Event.add, Event.button, Event.dd_ok, Event.remove]).state =
      some State.IDLE ∧
    (StateMachine.run m [Event.add, Event.button, Event.dd_ok, Event.remove]).ui.pattern =
      pattern_blank ∧
    (StateMachine.run m [Event.add, Event.button, Event.dd_ok, Event.remove]).wipes =
      m.wipes + 1 := by
  have h1 : StateMachine.step m Event.add
      = StateMachine.entryAction State.READY { m with state := some State.READY } :=
    step_compute m State.IDLE State.READY Event.add h rfl (by decide)
  have h2 : StateMachine.step
        (StateMachine.entryAction State.READY { m with state := some State.READY })
        Event.button
      = StateMachine.entryAction State.ERASING
          { StateMachine.entryAction State.READY { m with state := some State.READY } with
            state := some State.ERASING } :=
    step_compute _ State.READY State.ERASING Event.button
      (by rw [entryAction_state]) rfl (by decide)
  have h3 : StateMachine.step
        (StateMachine.entryAction State.ERASING
          { StateMachine.entryAction State.READY { m with state := some State.READY } with
            state := some State.ERASING })
        Event.dd_ok
      = StateMachine.entryAction State.WIPED
          { StateMachine.entryAction State.ERASING
              { StateMachine.entryAction State.READY
                  { m with state := some State.READY } with
                state := some State.ERASING } with
            state := some State.WIPED } :=
    step_compute _ State.ERASING State.WIPED Event.dd_ok
      (by rw [entryAction_state]) rfl (by decide)
  have h4 : StateMachine.step
        (StateMachine.entryAction State.WIPED
          { StateMachine.entryAction State.ERASING
              { StateMachine.entryAction State.READY
                  { m with state := some State.READY } with
                state := some State.ERASING } with
            state := some State.WIPED })
        Event.remove
      = StateMachine.entryAction State.IDLE
          { StateMachine.entryAction State.WIPED
              { StateMachine.entryAction State.ERASING
                  { StateMachine.entryAction State.READY
                      { m with state := some State.READY } with
                    state := some State.ERASING } with
                state := some State.WIPED } with
            state := some State.IDLE } :=
    step_compute _ State.WIPED State.IDLE Event.remove
      (by rw [entryAction_state]) rfl (by decide)
  have hrun : StateMachine.run m [Event.add, Event.button, Event.dd_ok, Event.remove]
      = StateMachine.step (StateMachine.step (StateMachine.step
          (StateMachine.step m Event.add) Event.button) Event.dd_ok) Event.remove := rfl
  rw [hrun, h1, h2, h3, h4]
  exact ⟨rfl, rfl, rfl, rfl, rfl, rfl⟩

/-- Witness for C7 from the machine as booted by `main` (initial state
`IDLE`, no wipe commanded yet). -/
theorem wipe_cycle_witness :
    StateMachine.booted.state = some State.IDLE ∧
    (StateMachine.run StateMachine.booted
      [Event.add, Event.button, Event.dd_ok, Event.remove]).state = some State.IDLE ∧
    (StateMachine.run StateMachine.booted
      [Event.add, Event.button, Event.dd_ok, Event.remove]).ui.pattern = pattern_blank ∧
    (StateMachine.run StateMachine.booted
      [Event.add, Event.button, Event.dd_ok, Event.remove]).wipes =
      StateMachine.booted.wipes + 1 :=
  ⟨rfl,
   (wipe_cycle StateMachine.booted rfl).2.2.2.1,
   (wipe_cycle StateMachine.booted rfl).2.2.2.2.1,
   (wipe_cycle StateMachine.booted rfl).2.2.2.2.2⟩

/-- C8: From `Ready`, ButtonPressed then DiskRemoved reaches `Yanked`;
entering `Yanked` invokes the wiper's `abort()` (the abort counter rises
by one); any non-zero exit the aborted process subsequently reports is
suppressed by the watcher's `YANKED` check (no `dd_fail` is posted), and
even a stray `dd_fail` event would match no rule in `Yanked`, so the state
remains `Yanked`. -/
theorem yank_suppresses_failure (m : FSM) (h : m.state = some State.READY) :
    (StateMachine.step m Event.button).state = some State.ERASING ∧
    (StateMachine.step (StateMachine.step m Event.button) Event.remove).state =
      some State.YANKED ∧
    (StateMachine.step (StateMachine.step m Event.button) Event.remove).aborts =
      m.aborts + 1 ∧
    (∀ ret : Int, ret ≠ 0 →
      DiskWiper.exitEvent ret
        (StateMachine.step (StateMachine.step m Event.button) Event.remove).state =
        none) ∧
    StateMachine.step (StateMachine.step (StateMachine.step m Event.button)
      Event.remove) Event.dd_fail =
      StateMachine.step (StateMachine.step m Event.button) Event.remove := by
  have h1 : StateMachine.step m Event.button
      = StateMachine.entryAction State.ERASING { m with state := some State.ERASING } :=
    step_compute m State.READY State.ERASING Event.button h rfl (by decide)
  have h2 : StateMachine.step
        (StateMachine.entryAction State.ERASING { m with state := some State.ERASING })
        Event.remove
      = StateMachine.entryAction State.YANKED
          { StateMachine.entryAction State.ERASING
              { m with state := some State.ERASING } with
            state := some State.YANKED } :=
    step_compute _ State.ERASING State.YANKED Event.remove
      (by rw [entryAction_state]) rfl (by decide)
  rw [h1, h2]
  refine ⟨rfl, rfl, rfl, fun ret hret => ?_, rfl⟩
  simp [DiskWiper.exitEvent, hret]
  rw [entryAction_state]

/-- Witness for C8 from a concrete `Ready` machine and exit code −9. -/
theorem yank_suppresses_failure_witness :
    (mkFSM State.READY).state = some State.READY ∧
    ((-9 : Int) ≠ 0) ∧
    (StateMachine.step (StateMachine.step (mkFSM State.READY) Event.button)
      Event.remove).state = some State.YANKED ∧
    (StateMachine.step (StateMachine.step (mkFSM State.READY) Event.button)
      Event.remove).aborts = (mkFSM State.READY).aborts + 1 ∧
    DiskWiper.exitEvent (-9)
      (StateMachine.step (StateMachine.step (mkFSM State.READY) Event.button)
        Event.remove).state = none :=
  ⟨rfl, by decide,
   (yank_suppresses_failure (mkFSM State.READY) rfl).2.1,
   (yank_suppresses_failure (mkFSM State.READY) rfl).2.2.1,
   (yank_suppresses_failure (mkFSM State.READY) rfl).2.2.2.1 (-9) (by decide)⟩

/-- When every write before `size` makes positive progress, the write loop
finishes within its fuel and exits with status 0 at a final offset of at
least `size`. -/
lemma ddRun_ok (w : Nat → Option Nat) (size : Nat)
    (hw : ∀ o, o < size → ∃ k, w o = some k ∧ 0 < k) :
    ∀ fuel offz, size ≤ offz + fuel →
      ∃ final, ddRun w fuel size offz = some (0, final) ∧ size ≤ final := by
  intro fuel
  induction fuel with
  | zero =>
    intro offz hle
    have hnlt : ¬ offz < size := by omega
    exact ⟨offz, by simp [ddRun, hnlt], by omega⟩
  | succ n ih =>
    intro offz hle
    by_cases hlt : offz < size
    · obtain ⟨k, hk, hkpos⟩ := hw offz hlt
      obtain ⟨final, hrun, hfin⟩ := ih (offz + k) (by omega)
      refine ⟨final, ?_, hfin⟩
      simp only [ddRun, if_pos hlt, hk]
      exact hrun
    · exact ⟨offz, by simp [ddRun, hlt], by omega⟩

/-- The successive writes are contiguous from the starting offset, so every
offset between the start and the device size lies in some written
interval. -/
lemma ddTrace_covers (w : Nat → Option Nat) (size : Nat)
    (hw : ∀ o, o < size → ∃ k, w o = some k ∧ 0 < k) :
    ∀ fuel offz, size ≤ offz + fuel →
      ∀ off, offz ≤ off → off < size →
        ∃ p ∈ ddTrace w fuel size offz, p.1 ≤ off ∧ off < p.1 + p.2 := by
  intro fuel
  induction fuel with
  | zero => intro offz hle off h1 h2; omega
  | succ n ih =>
    intro offz hle off h1 h2
    have hlt : offz < size := by omega
    obtain ⟨k, hk, hkpos⟩ := hw offz hlt
    by_cases hoff : off < offz + k
    · refine ⟨(offz, k), ?_, h1, hoff⟩
      simp [ddTrace, hlt, hk]
    · obtain ⟨p, hp, hp1, hp2⟩ := ih (offz + k) (by omega) off (by omega) h2
      refine ⟨p, ?_, hp1, hp2⟩
      simp only [ddTrace, if_pos hlt, hk, List.mem_cons]
      exact Or.inr hp

/-- C9: For a device of `size` bytes whose writes each succeed with a
positive byte count, `dd.py` (whose `size` is the offset returned by
seeking to the device end) terminates its write loop with exit status 0,
the contiguous zero-writes covering every offset in `[0, size)`; a write
that raises makes it exit with status 1, as does a failure to open the
device; and the supervisor interprets exit status 0 as success (`dd_ok`)
and any other status as failure (`dd_fail`). -/
theorem dd_erase_correct (size : Nat) (w : Nat → Option Nat)
    (hw : ∀ o, o < size → ∃ k, w o = some k ∧ 0 < k) :
    (∃ final, dd_main (some ⟨size⟩) w = some (0, final) ∧ size ≤ final) ∧
    (∀ off, off < size →
      ∃ p ∈ ddTrace w size size 0, p.1 ≤ off ∧ off < p.1 + p.2) ∧
    (∀ offz fuel, offz < size → w offz = none →
      ddRun w (fuel + 1) size offz = some (1, offz)) ∧
    dd_main none w = some (1, 0) ∧
    (∀ st, DiskWiper.exitEvent 0 st = some Event.dd_ok) ∧
    (∀ r : Int, r ≠ 0 →
      DiskWiper.exitEvent r (some State.ERASING) = some Event.dd_fail) := by
  refine ⟨?_, ?_, ?_, rfl, fun st => rfl, fun r hr => ?_⟩
  · have := ddRun_ok w size hw size 0 (by omega)
    simpa [dd_main] using this
  · intro off hoff
    exact ddTrace_covers w size hw size 0 (by omega) off (Nat.zero_le _) hoff
  · intro offz fuel h1 h2
    simp [ddRun, h1, h2]
  · simp [DiskWiper.exitEvent, hr]

/-- Witness for C9: a 5-byte device with 2-byte writes erases fully and
exits 0. -/
theorem dd_erase_correct_witness :
    (∀ o, o < 5 → ∃ k, (fun _ => some 2 : Nat → Option Nat) o = some k ∧ 0 < k) ∧
    (∃ final, dd_main (some ⟨5⟩) (fun _ => some 2) = some (0, final) ∧ 5 ≤ final) :=
  ⟨fun o _ => ⟨2, rfl, by decide⟩,
   (dd_erase_correct 5 (fun _ => some 2) (fun o _ => ⟨2, rfl, by decide⟩)).1⟩

/-- C10: `display(patternName)` with a defined name replaces the active
pattern and sets the update flag, and the actor's next loop observation
clears the flag and restarts at the new pattern's first step (index 0);
with an undefined name the call changes nothing and does not signal the
actor. -/
theorem display_behavior (ui : UIState) (pat : String) :
    (∀ p, lookupPattern pat = some p →
      UserInterface.display ui pat = { pattern := p, update := true } ∧
      ∀ idx, UserInterface.runStep (UserInterface.display ui pat) idx =
        ({ pattern := p, update := false }, 0)) ∧
    (lookupPattern pat = none → UserInterface.display ui pat = ui) := by
  constructor
  · intro p hp
    constructor
    · simp [UserInterface.display, hp]
    · intro idx
      simp [UserInterface.display, hp, UserInterface.runStep]
  · intro hp
    simp [UserInterface.display, hp]

/-- Witness for C10 at the defined name "green" and the undefined name
"purple". -/
theorem display_behavior_witness :
    lookupPattern "green" = some pattern_green ∧
    UserInterface.display UserInterface.init "green" =
      { pattern := pattern_green, update := true } ∧
    UserInterface.runStep (UserInterface.display UserInterface.init "green") 3 =
      ({ pattern := pattern_green, update := false }, 0) ∧
    lookupPattern "purple" = none ∧
    UserInterface.display UserInterface.init "purple" = UserInterface.init := by
  have hg : lookupPattern "green" = some pattern_green := rfl
  have hn : lookupPattern "purple" = none := rfl
  exact ⟨hg,
    ((display_behavior UserInterface.init "green").1 pattern_green hg).1,
    ((display_behavior UserInterface.init "green").1 pattern_green hg).2 3,
    hn,
    (display_behavior UserInterface.init "purple").2 hn⟩

end Diskrasper
